import Mathlib

/-!
Verification development for the futaba journal-routing cog and the file
content-filter check.

The source files embedded here are `futaba/cogs/journal/core.py` and
`futaba/cogs/filter/check/file.py`.  Components they call that live in
other modules of the repository (`futaba.journal.Router`, `Broadcaster`,
`ChannelOutputListener`, `futaba.enums.FilterType`) are not part of the
provided sources; those pieces are modelled from the specification, as
noted in the doc comment of each such definition.
-/

namespace Futaba

/-- A Discord guild (the spec's opaque tenant scope), identified by its id. -/
structure Guild where
  id : Nat
deriving DecidableEq

/-- A Discord text channel, identified by its id.  Channels are the concrete
destinations of journal output listeners. -/
structure TextChannel where
  id : Nat
deriving DecidableEq

/-- A value stored in an event's attribute mapping.  `log_send` produces
string values; the journal event emitted by `log_add` also stores a channel
and a boolean (kwargs `channel=`, `path=`, `recursive=` on lines 151-159). -/
inductive AttrVal where
  | str (s : String)
  | chan (c : TextChannel)
  | boolV (b : Bool)
deriving DecidableEq

/-- An Event as routed by the journal system: hierarchical path, optional
guild scope, text content, attribute mapping and icon tag. -/
structure Event where
  path : String
  guild : Option Guild
  content : String
  attributes : List (String × AttrVal)
  icon : String
deriving DecidableEq

/-- Errors surfaced by the cog commands and by the journal layer.
`commandFailed` models the `CommandFailed` exception raised by the cog;
`pathFormatError` models the spec's `PathFormatError`. -/
inductive JournalError where
  | commandFailed (msg : String)
  | pathFormatError
deriving DecidableEq

/-- Checks the run of characters after the leading slash of a path:
no empty segment may occur, i.e. no `//` and no trailing `/`.
`atSegStart` is true when the next character begins a new segment. -/
def pathSegsOk (atSegStart : Bool) : List Char → Bool
  | [] => !atSegStart
  | c :: cs => if c = '/' then (if atSegStart then false else pathSegsOk true cs) else pathSegsOk false cs

/-- Well-formed path per the spec's data model: a non-empty, root-anchored,
slash-delimited hierarchical string — it starts with `/` and contains no
empty segment.  The bare root `/` is well formed. -/
def wellFormedPath (p : String) : Bool :=
  match p.data with
  | [] => false
  | c :: [] => c = '/'
  | c :: cs => if c = '/' then pathSegsOk true cs else false

/-- Boolean test that the first list is an initial run of the second. -/
def leadsWith : List Char → List Char → Bool
  | [], _ => true
  | _ :: _, [] => false
  | a :: as, b :: bs => a == b && leadsWith as bs

/-- Appends a path separator unless the path already ends in one. -/
def withSep (p : List Char) : List Char :=
  match p.getLast? with
  | some c => if c = '/' then p else p ++ ['/']
  | none => p ++ ['/']

/-- True when the string ends with a `/` character. -/
def endsWithSlash (s : String) : Bool :=
  match s.data.getLast? with
  | some c => c = '/'
  | none => false

/-- PurePath-style join of a root path with a relative path: joining the
empty relative path yields the root unchanged; otherwise the two are
separated by exactly one slash. -/
def joinPath (root rel : String) : String :=
  if rel = "" then root
  else if endsWithSlash root then root ++ rel
  else root ++ "/" ++ rel

/-- Modelled from the spec: an OutputListener is a path, a recursive flag
and a destination.  The concrete `ChannelOutputListener` constructor is not
under the provided sources; the cog calls it as
`ChannelOutputListener(self.router, path, channel)` (core.py lines 58-60 and
139), never passing a recursive argument, so the constructor's default for
`recursive` applies to every listener the cog registers.  That default
(`True` upstream) is modelled here as the field default. -/
structure ChannelOutputListener where
  path : String
  channel : TextChannel
  recursive : Bool := true
deriving DecidableEq

/-- The (path, destination) pair identifying a listener registration. -/
def listenerKey (l : ChannelOutputListener) : String × TextChannel :=
  (l.path, l.channel)

/-- The Router's listener registry.  The Router class itself is not under
the provided sources; its registry is modelled from the spec as the ordered
collection of registered listeners. -/
structure Router where
  listeners : List ChannelOutputListener
deriving DecidableEq

/-- Modelled from the spec: the Router matching rule.  Listener L matches
event E when `L.path == E.path` exactly (regardless of the recursive flag),
or when L is recursive and E.path is a strict descendant of L.path under
segment-boundary semantics — E.path starts with L.path followed by a
separator.  A recursive listener at the root path matches every
root-anchored event. -/
def matchesEvent (l : ChannelOutputListener) (e : Event) : Bool :=
  decide (l.path = e.path) || (l.recursive && leadsWith (withSep l.path.data) e.path.data)

/-- Modelled from the spec: `Router.register` adds a listener to the
registry; registering an identical (path, destination) pair is treated as
an update of the existing registration, not a duplicate and not a fault. -/
def Router.register (r : Router) (l : ChannelOutputListener) : Router :=
  if r.listeners.any (fun l2 => decide (listenerKey l2 = listenerKey l)) then
    { listeners := r.listeners.map (fun l2 => if listenerKey l2 = listenerKey l then l else l2) }
  else
    { listeners := r.listeners ++ [l] }

/-- Modelled from the spec: registration rejects a malformed listener path
eagerly with `PathFormatError` (spec section 7), before touching the
registry. -/
def Router.registerChecked (r : Router) (l : ChannelOutputListener) : Except JournalError Router :=
  if wellFormedPath l.path then .ok (r.register l) else .error .pathFormatError

/-- Modelled from the spec: `Router.get(path, destination?)` is a registry
lookup by path and destination identity, returning an explicit empty result
when absent. -/
def Router.get (r : Router) (path : String) (channel : TextChannel) : Option ChannelOutputListener :=
  r.listeners.find? (fun l => decide (l.path = path ∧ l.channel = channel))

/-- One row of the journal configuration table: the persistence collaborator
stores (destination, path, recursive) tuples. -/
structure JournalRow where
  channel : TextChannel
  path : String
  recursive : Bool
deriving DecidableEq

/-- The journal configuration table of the persistence collaborator. -/
structure JournalDB where
  rows : List JournalRow
deriving DecidableEq

/-- The lookup `has_journal_channel(channel, path)`: whether a row with this
(destination, path) pair exists. -/
def JournalDB.hasJournalChannel (db : JournalDB) (channel : TextChannel) (path : String) : Bool :=
  db.rows.any (fun row => decide (row.channel = channel ∧ row.path = path))

/-- The update `update_journal_channel(channel, path, recursive)`: updates the
recursive setting of the existing (destination, path) row. -/
def JournalDB.updateJournalChannel (db : JournalDB) (channel : TextChannel) (path : String) (recursive : Bool) : JournalDB :=
  { rows := db.rows.map (fun row =>
      if row.channel = channel ∧ row.path = path then { row with recursive := recursive } else row) }

/-- The insert `add_journal_channel(channel, path, recursive)`: inserts a new row. -/
def JournalDB.addJournalChannel (db : JournalDB) (channel : TextChannel) (path : String) (recursive : Bool) : JournalDB :=
  { rows := db.rows ++ [{ channel := channel, path := path, recursive := recursive }] }

/-- The delete `delete_journal_channel(channel, path)`: removes the rows with this
(destination, path) pair. -/
def JournalDB.deleteJournalChannel (db : JournalDB) (channel : TextChannel) (path : String) : JournalDB :=
  { rows := db.rows.filter (fun row => !decide (row.channel = channel ∧ row.path = path)) }

/-- A Broadcaster is a producer-facing handle bound to a root path
(core.py line 45: `bot.get_broadcaster("/journal")`). -/
structure Broadcaster where
  root : String
deriving DecidableEq

/-- Modelled from the spec: `Broadcaster.send(path, scope, content,
attributes, icon)` constructs an Event and hands it to the Router.  The
event path is the broadcaster's root joined with the relative `path`
argument (PurePath join) — the reading consistent with the spec's own
delivery scenario and with the cog's calls (`log_send` passes the relative
path `""`, core.py line 293).  A malformed resulting path is rejected
eagerly with `PathFormatError` (spec section 7). -/
def Broadcaster.send (b : Broadcaster) (path : String) (guild : Option Guild) (content : String)
    (attributes : List (String × AttrVal)) (icon : String) : Except JournalError Event :=
  if wellFormedPath (joinPath b.root path) then
    .ok { path := joinPath b.root path, guild := guild, content := content,
          attributes := attributes, icon := icon }
  else
    .error .pathFormatError

/-- Modelled from the spec, as worded: the claim's alternative reading in
which "the path argument is used verbatim, not rewritten relative to the
broadcaster's root".  Kept for comparison with `Broadcaster.send`. -/
def Broadcaster.sendVerbatim (b : Broadcaster) (path : String) (guild : Option Guild) (content : String)
    (attributes : List (String × AttrVal)) (icon : String) : Event :=
  { path := path, guild := guild, content := content, attributes := attributes, icon := icon }

/-- The broadcaster held by the Journal cog (core.py line 45). -/
def journalBroadcaster : Broadcaster :=
  { root := "/journal" }

/-- The flag loop of `log_add` and `log_rename` (core.py lines 131-136 and
225-230): `recursive` starts as true; `-exact` sets it to false; any other
flag raises `CommandFailed`. -/
def parseExactFlags : List String → Except JournalError Bool :=
  go true
where
  go (recursive : Bool) : List String → Except JournalError Bool
    | [] => .ok recursive
    | flag :: rest =>
      if flag = "-exact" then go false rest
      else .error (.commandFailed ("No such flag: " ++ flag))

/-- Insert-or-overwrite into an attribute dictionary, mirroring Python's
`journal_attributes[key] = value` (core.py line 281). -/
def dictInsert (m : List (String × AttrVal)) (key : String) (value : AttrVal) : List (String × AttrVal) :=
  if m.any (fun kv => decide (kv.1 = key)) then
    m.map (fun kv => if kv.1 = key then (key, value) else kv)
  else m ++ [(key, value)]

/-- The attribute loop of `log_send` (core.py lines 277-285): each argument
must split on `=` into exactly a key and a value, else `CommandFailed`. -/
def parseAttributes : List String → Except JournalError (List (String × AttrVal)) :=
  go []
where
  go (acc : List (String × AttrVal)) : List String → Except JournalError (List (String × AttrVal))
    | [] => .ok acc
    | attrib :: rest =>
      match attrib.splitOn "=" with
      | [key, value] => go (dictInsert acc key (.str value)) rest
      | _ => .error (.commandFailed "All attributes must be in the form KEY=VALUE")

/-- The state produced by a successful `journal add` command. -/
structure LogAddResult where
  router : Router
  db : JournalDB
  listener : ChannelOutputListener
deriving DecidableEq

/-- The command `log_add` (core.py lines 117-147): parses the flags, registers a
`ChannelOutputListener(self.router, path, channel)` — note that on line 139
the parsed `recursive` flag is NOT passed to the listener constructor, so
the constructor default applies — and then updates the database, where the
parsed `recursive` flag IS used: an existing (channel, path) row is updated,
otherwise a new row is added. -/
def logAdd (router : Router) (db : JournalDB) (channel : TextChannel) (path : String)
    (flags : List String) : Except JournalError LogAddResult :=
  match parseExactFlags flags with
  | .error e => .error e
  | .ok recursive =>
    let listener : ChannelOutputListener := { path := path, channel := channel }
    match router.registerChecked listener with
    | .error e => .error e
    | .ok router2 =>
      let db2 :=
        if db.hasJournalChannel channel path then db.updateJournalChannel channel path recursive
        else db.addJournalChannel channel path recursive
      .ok { router := router2, db := db2, listener := listener }

/-- The journal event emitted at the end of `log_add` (core.py lines
150-159): `self.journal.send("channel/add", ctx.guild, content,
icon="journal", channel=channel, path=path, recursive=recursive)`. -/
def logAddJournalEvent (guild : Guild) (channel : TextChannel) (path : String) (recursive : Bool)
    (content : String) : Except JournalError Event :=
  journalBroadcaster.send "channel/add" (some guild) content
    [("channel", .chan channel), ("path", .str path), ("recursive", .boolV recursive)] "journal"

/-- The state produced by a successful `journal rename` command. -/
structure LogRenameResult where
  router : Router
  db : JournalDB
deriving DecidableEq

/-- The in-place mutation `listener.channel = new_channel` (core.py line
239): the single listener object returned by `router.get` — the first
registry entry with the given (path, old channel) pair — has its channel
field overwritten; every other entry is untouched. -/
def renameListeners (newChannel : TextChannel) (path : String) (oldChannel : TextChannel) :
    List ChannelOutputListener → List ChannelOutputListener
  | [] => []
  | l :: rest =>
    if l.path = path ∧ l.channel = oldChannel then { l with channel := newChannel } :: rest
    else l :: renameListeners newChannel path oldChannel rest

/-- The command `log_rename` (core.py lines 202-244): parses the flags, looks the
listener up at the old channel (raising `CommandFailed` when absent),
mutates that listener's channel to the new channel, and replaces the
database row (delete old, add new with the parsed recursive flag). -/
def logRename (router : Router) (db : JournalDB) (oldChannel newChannel : TextChannel)
    (path : String) (flags : List String) : Except JournalError LogRenameResult :=
  match parseExactFlags flags with
  | .error e => .error e
  | .ok recursive =>
    match router.get path oldChannel with
    | none => .error (.commandFailed "No output found")
    | some _ =>
      let router2 : Router := { listeners := renameListeners newChannel path oldChannel router.listeners }
      let db2 := (db.deleteJournalChannel oldChannel path).addJournalChannel newChannel path recursive
      .ok { router := router2, db := db2 }

/-- The command `log_send` (core.py lines 266-294): rejects the path `/`, parses the
KEY=VALUE attributes, and calls
`self.bot.get_broadcaster(path).send("", ctx.guild, content, **attrs)` —
the broadcaster is rooted at the command's path argument and the relative
path handed to `send` is the empty string. -/
def logSend (guild : Guild) (path : String) (content : String) (attributes : List String) :
    Except JournalError Event :=
  if path = "/" then .error (.commandFailed "Cannot broadcast on /")
  else
    match parseAttributes attributes with
    | .error e => .error e
    | .ok journalAttributes =>
      Broadcaster.send { root := path } "" (some guild) content journalAttributes ""

/-- A Python value produced while evaluating a `journal find` condition. -/
inductive PyVal where
  | vStr (s : String)
  | vBool (b : Bool)
  | vGuild (g : Guild)
  | vChan (c : TextChannel)
  | vNone
deriving DecidableEq

/-- Python truthiness of a value, as used by `if eval(condition, scope):`
(core.py line 330). -/
def truthy : PyVal → Bool
  | .vStr s => decide (s ≠ "")
  | .vBool b => b
  | .vGuild _ => true
  | .vChan _ => true
  | .vNone => false

/-- The expressions a `journal find` condition may denote.  `log_find`
passes the condition string to Python `eval` over the scope built by
`create_scope` (core.py lines 312-319 and 330); this models the expression
language over that scope: variable lookup, attribute subscripts, equality,
boolean connectives and literals.  It is deliberately wider than the spec's
fixed safe predicate model, as the real `eval` is. -/
inductive PyExpr where
  | lit (v : PyVal)
  | varE (name : String)
  | attrGet (key : String)
  | eqE (a b : PyExpr)
  | andE (a b : PyExpr)
  | orE (a b : PyExpr)
  | notE (a : PyExpr)
deriving DecidableEq

/-- The scope `create_scope(event)` (core.py lines 312-319): the names visible to the
condition.  `path` is the event path, `content` the event content, and
`guild` is bound to `ctx.guild` — the invoking guild, not the event's.
Names outside the scope are modelled as Python `None`. -/
def scopeLookup (ctxGuild : Guild) (e : Event) (name : String) : PyVal :=
  if name = "path" then .vStr e.path
  else if name = "guild" then .vGuild ctxGuild
  else if name = "content" then .vStr e.content
  else .vNone

/-- Evaluation of a condition expression over the `create_scope` scope.
`and`/`or` return an operand (Python semantics); a missing attribute key is
modelled as `None`. -/
def PyExpr.eval : PyExpr → Guild → Event → PyVal
  | .lit v, _, _ => v
  | .varE name, g, e => scopeLookup g e name
  | .attrGet key, _, e =>
    match e.attributes.find? (fun kv => decide (kv.1 = key)) with
    | some kv => match kv.2 with
      | .str s => .vStr s
      | .chan c => .vChan c
      | .boolV b => .vBool b
    | none => .vNone
  | .eqE a b, g, e => .vBool (decide (a.eval g e = b.eval g e))
  | .andE a b, g, e => if truthy (a.eval g e) then b.eval g e else a.eval g e
  | .orE a b, g, e => if truthy (a.eval g e) then a.eval g e else b.eval g e
  | .notE a, g, e => .vBool (!truthy (a.eval g e))

/-- Modelled from the spec, as worded: the fixed, safe predicate model for
search filters — path-prefix match, scope equality, attribute
equality/containment — closed under boolean connectives.  It is the
candidate the claim asserts the code's condition evaluation stays within. -/
inductive FixedPred where
  | pathStartsWith (p : String)
  | scopeEq (g : Option Guild)
  | attrEq (key : String) (value : AttrVal)
  | attrHas (key : String)
  | andP (a b : FixedPred)
  | orP (a b : FixedPred)
  | notP (a : FixedPred)
deriving DecidableEq

/-- Evaluation of a fixed-model predicate over an event's exposed fields. -/
def FixedPred.eval : FixedPred → Event → Bool
  | .pathStartsWith p, e => leadsWith p.data e.path.data
  | .scopeEq g, e => decide (e.guild = g)
  | .attrEq key value, e => e.attributes.any (fun kv => decide (kv.1 = key ∧ kv.2 = value))
  | .attrHas key, e => e.attributes.any (fun kv => decide (kv.1 = key))
  | .andP a b, e => a.eval e && b.eval e
  | .orP a b, e => a.eval e || b.eval e
  | .notP a, e => !a.eval e

/-- Two events no fixed-model predicate can tell apart. -/
def fixedIndistinguishable (e1 e2 : Event) : Prop :=
  ∀ φ : FixedPred, φ.eval e1 = φ.eval e2

/-- The events `log_find` iterates over (core.py lines 321-323):
`reversed(self.journal.history)` (most-recent-first, history being in
insertion order), filtered to the invoking guild, then `islice(events, 20)`. -/
def logFindConsidered (guild : Guild) (history : List Event) : List Event :=
  ((history.reverse).filter (fun e => decide (e.guild = some guild))).take 20

/-- The matching loop of `log_find` (core.py lines 328-331): each considered
event for which the condition evaluates truthy is appended to `matched`. -/
def logFindMatched (condition : PyExpr) (guild : Guild) (history : List Event) : List Event :=
  (logFindConsidered guild history).foldl
    (fun matched e => if truthy (condition.eval guild e) then matched ++ [e] else matched) []

/-- A sha1 digest, modelled opaquely. -/
abbrev Hashsum := Nat

/-- A downloaded file buffer, modelled opaquely. -/
abbrev BinData := Nat

/-- A URL. -/
abbrev Url := String

/-- Modelled from the usage in file.py: the `FilterType` enum
(`futaba.enums`) is not under the provided sources.  Each filter type
carries a `value` (compared by `>` on line 63) and a severity `level`
(compared by `>=` on lines 118, 136, 140, 146). -/
structure FilterType where
  value : Nat
  level : Nat
deriving DecidableEq

/-- The enum member `FilterType.FLAG`: the lowest enforcement level. -/
def FilterType.flag : FilterType := { value := 1, level := 1 }

/-- The enum member `FilterType.BLOCK`: the middle enforcement level. -/
def FilterType.block : FilterType := { value := 2, level := 2 }

/-- The enum member `FilterType.JAIL`: the highest enforcement level. -/
def FilterType.jail : FilterType := { value := 3, level := 3 }

/-- A Discord message, reduced to the identities the filter check uses. -/
structure Message where
  id : Nat
  author : Nat
deriving DecidableEq

/-- The `FoundFileViolation` namedtuple (file.py lines 33-36). -/
structure FoundFileViolation where
  journal : Nat
  message : Message
  filter_type : FilterType
  url : Url
  binio : BinData
  hashsum : Hashsum
deriving DecidableEq

/-- The special roles of a guild; the filter check reads `roles.jail`
(file.py lines 119, 148). -/
structure SpecialRoles where
  jail : Option Nat
deriving DecidableEq

/-- The Python dict assignment `hashsums[digest] = (binio, url)` (file.py
line 54): insert or overwrite by digest key. -/
def insertHashsum (m : List (Hashsum × BinData × Url)) (digest : Hashsum) (binio : BinData)
    (url : Url) : List (Hashsum × BinData × Url) :=
  if m.any (fun row => decide (row.1 = digest)) then
    m.map (fun row => if row.1 = digest then (digest, binio, url) else row)
  else m ++ [(digest, binio, url)]

/-- The hashsum dict built from the downloaded buffers (file.py lines
49-54): buffers that failed to download (`None`) are skipped. -/
def buildHashsums (digest : BinData → Hashsum) (downloads : List (Option BinData × Url)) :
    List (Hashsum × BinData × Url) :=
  downloads.foldl (fun m row =>
    match row.1 with
    | none => m
    | some binio => insertHashsum m (digest binio) binio row.2) []

/-- The dict lookup `hashsums[hashsum]` (file.py line 58), returning `none`
on a `KeyError`. -/
def lookupHashsum (m : List (Hashsum × BinData × Url)) (h : Hashsum) : Option (BinData × Url) :=
  (m.find? (fun row => decide (row.1 = h))).map (fun row => row.2)

/-- One iteration of the filter loop of `check_file_filter` (file.py lines
56-71): a filter whose hashsum is absent from the downloads is skipped; a
matching filter replaces the current `triggered` when there is none yet or
when its `filter_type.value` is strictly greater. -/
def triggeredStep (journal : Nat) (message : Message) (hashsums : List (Hashsum × BinData × Url))
    (triggered : Option FoundFileViolation) (entry : Hashsum × FilterType) :
    Option FoundFileViolation :=
  match lookupHashsum hashsums entry.1 with
  | none => triggered
  | some (binio, url) =>
    match triggered with
    | none => some { journal := journal, message := message, filter_type := entry.2,
                     url := url, binio := binio, hashsum := entry.1 }
    | some t =>
      if t.filter_type.value < entry.2.value then
        some { journal := journal, message := message, filter_type := entry.2,
               url := url, binio := binio, hashsum := entry.1 }
      else triggered

/-- The full filter loop of `check_file_filter` over the guild's content
filters (file.py lines 47-71), starting from `triggered = None`. -/
def checkTriggered (journal : Nat) (message : Message) (filters : List (Hashsum × FilterType))
    (hashsums : List (Hashsum × BinData × Url)) : Option FoundFileViolation :=
  filters.foldl (triggeredStep journal message hashsums) none

/-- The enforcement actions `found_file_violation` can perform (file.py
lines 136-158). -/
inductive EnforcementAction where
  | notifyStaffJournal
  | deleteMessage
  | notifyAuthor
  | assignJailRole
  | warnNoJailRole
deriving DecidableEq

/-- The enforcement performed by the body of `found_file_violation` (file.py
lines 102-158) for a triggered violation, with `severity =
filter_type.level` (line 102): at FLAG level and above the staff journal is
notified (lines 136-138); at BLOCK level and above the message is deleted
and the author notified (lines 140-144); at JAIL level and above the jail
role is assigned, or a warning journal event is sent when no jail role is
configured (lines 146-158). -/
def foundFileViolationActions (roles : SpecialRoles) (triggered : FoundFileViolation)
    (reupload : Bool) : List EnforcementAction :=
  let severity := triggered.filter_type.level
  (if FilterType.flag.level ≤ severity then [.notifyStaffJournal] else [])
    ++ (if FilterType.block.level ≤ severity then [.deleteMessage, .notifyAuthor] else [])
    ++ (if FilterType.jail.level ≤ severity then
          match roles.jail with
          | none => [.warnNoJailRole]
          | some _ => [.assignJailRole]
        else [])

/-- The enforcement entry point of `check_file_filter` (file.py lines
73-78): when no filter matched, nothing is enforced; otherwise the selected
violation is handed over for enforcement. -/
def checkFileFilterEnforces (journal : Nat) (message : Message)
    (filters : List (Hashsum × FilterType)) (hashsums : List (Hashsum × BinData × Url))
    (roles : SpecialRoles) (reupload : Bool) : Option (List EnforcementAction) :=
  match checkTriggered journal message filters hashsums with
  | none => none
  | some t => some (foundFileViolationActions roles t reupload)

/-- A Python object reaching `found_file_violation`: either the
`FoundFileViolation` namedtuple or the guild's special-roles record. -/
inductive PyObj where
  | violationObj (v : FoundFileViolation)
  | rolesObj (r : SpecialRoles)
deriving DecidableEq

/-- Python attribute lookup on those objects: the namedtuple exposes its six
fields, the special-roles record exposes `jail`. -/
def PyObj.hasField : PyObj → String → Bool
  | .violationObj _, name => ["journal", "message", "filter_type", "url", "binio", "hashsum"].contains name
  | .rolesObj _, name => ["jail"].contains name

/-- A dynamic (duck-typing) error: accessing a missing attribute raises
`AttributeError`. -/
inductive PyError where
  | attributeError (name : String)
deriving DecidableEq

/-- Reads the named attributes off an object in order, stopping at the
first `AttributeError`. -/
def readFields (obj : PyObj) : List String → Except PyError Unit
  | [] => .ok ()
  | name :: rest => if obj.hasField name then readFields obj rest else .error (.attributeError name)

/-- The prologue of `found_file_violation` (file.py lines 81-92): the
declared parameter order is `(roles, triggered, reupload)`, and the body
immediately reads the six namedtuple fields off the parameter named
`triggered`. -/
def foundFileViolationFieldReads (roles : PyObj) (triggered : PyObj) (reupload : Bool) :
    Except PyError Unit :=
  readFields triggered ["journal", "message", "filter_type", "url", "binio", "hashsum"]

/-- The call on file.py line 78:
`found_file_violation(triggered, roles, settings.reupload)` — the arguments
are passed positionally in this order, so the `FoundFileViolation`
namedtuple binds to the parameter named `roles` and the special-roles
record binds to the parameter named `triggered`. -/
def checkFileFilterViolationCall (triggered : FoundFileViolation) (roles : SpecialRoles)
    (reupload : Bool) : Except PyError Unit :=
  foundFileViolationFieldReads (.violationObj triggered) (.rolesObj roles) reupload

/-- The invariant that no two registered listeners share an identical
(path, destination) pair. -/
def routerDistinct (r : Router) : Prop :=
  (r.listeners.map listenerKey).Nodup

/-- The (destination, path) key of a journal configuration row. -/
def dbKey (row : JournalRow) : TextChannel × String :=
  (row.channel, row.path)

/-- The invariant that no two journal configuration rows share an identical
(destination, path) pair. -/
def dbDistinct (db : JournalDB) : Prop :=
  (db.rows.map dbKey).Nodup

/-!  Theorems.  -/

/-- Helper: a fold that conditionally appends is a filter. -/
theorem foldl_append_ite_eq_filter {α : Type} (p : α → Bool) (l : List α) (acc : List α) :
    l.foldl (fun m e => if p e then m ++ [e] else m) acc = acc ++ l.filter p := by
  induction l generalizing acc with
  | nil => simp
  | cons x xs ih => cases h : p x <;> simp [h, ih, List.filter_cons]

/-- Helper: fixed-model predicates only read the path, guild and attribute
fields of an event. -/
theorem fixedPred_eval_congr (e1 e2 : Event) (hp : e1.path = e2.path) (hg : e1.guild = e2.guild)
    (ha : e1.attributes = e2.attributes) : ∀ φ : FixedPred, φ.eval e1 = φ.eval e2 := by
  intro φ
  induction φ <;> simp_all [FixedPred.eval]

/-- C1: the recursive/exact choice parsed from the `journal add` flags does
NOT take effect on the listener handed to `Router.register`.  Running
`journal add` with the `-exact` flag parses `recursive = False`, yet line
139 constructs `ChannelOutputListener(self.router, path, channel)` without
passing that flag, so the registered listener keeps the constructor default
`recursive = True` and still matches strict descendants such as
`/journal/channel/add`. -/
theorem c1_exact_flag_dropped_on_registration :
    parseExactFlags ["-exact"] = .ok false ∧
    ∃ res, logAdd { listeners := [] } { rows := [] } { id := 1 } "/journal" ["-exact"] = .ok res ∧
      res.listener.recursive = true ∧
      res.router.listeners = [res.listener] ∧
      matchesEvent res.listener
        { path := "/journal/channel/add", guild := none, content := "", attributes := [],
          icon := "" } = true :=
  ⟨rfl, _, rfl, rfl, rfl, by decide⟩

/-- C2 counterexample: the claim asserts both that `Broadcaster.send` uses
its path argument verbatim and that, under that rule, the Journal cog's
send of `"channel/add"` on the broadcaster rooted at `"/journal"` yields an
event at `/journal/channel/add`.  Under the verbatim rule the event path is
`"channel/add"`, which is not `/journal/channel/add`, so the claim as
stated is false. -/
theorem c2_verbatim_contradicts_scenario :
    (Broadcaster.sendVerbatim journalBroadcaster "channel/add" (some { id := 1 }) "c" [] "journal").path
      = "channel/add" ∧
    ("channel/add" : String) ≠ "/journal/channel/add" :=
  ⟨rfl, by decide⟩

/-- C2 (amended): `Broadcaster.send(p, ...)` constructs an Event whose path
is the broadcaster's root path joined with `p`, and the Journal cog's send
of `"channel/add"` on the broadcaster rooted at `"/journal"` yields the
event at `/journal/channel/add`. -/
theorem c2_send_joins_broadcaster_root :
    (∀ (b : Broadcaster) (p : String) (g : Option Guild) (content : String)
        (attrs : List (String × AttrVal)) (icon : String) (e : Event),
      b.send p g content attrs icon = .ok e → e.path = joinPath b.root p) ∧
    (∀ (g : Guild) (channel : TextChannel) (path : String) (recursive : Bool) (content : String),
      ∃ e, logAddJournalEvent g channel path recursive content = .ok e ∧
        e.path = "/journal/channel/add") := by
  constructor
  · intro b p g content attrs icon e h
    unfold Broadcaster.send at h
    split at h
    · cases h; rfl
    · cases h
  · intro g channel path recursive content
    exact ⟨_, rfl, rfl⟩

/-- C2 witness: the first part of the theorem applied to the cog's own
broadcaster and path. -/
theorem c2_send_joins_broadcaster_root_witness :
    ({ path := "/journal/channel/add", guild := some { id := 1 }, content := "c",
       attributes := [], icon := "journal" } : Event).path
      = joinPath journalBroadcaster.root "channel/add" :=
  c2_send_joins_broadcaster_root.1 journalBroadcaster "channel/add" (some { id := 1 }) "c" []
    "journal" _ rfl

/-- C3: `journal find` evaluates its condition over exactly the at-most-20
most-recent events of the invoking guild, in most-recent-first order: the
considered list is at most 20 long, every considered event belongs to the
guild, the considered list is the first 20 entries of the guild-filtered
most-recent-first history, and the matching loop is a filter over exactly
the considered list. -/
theorem c3_find_considers_twenty_recent_guild_events (guild : Guild) (history : List Event)
    (condition : PyExpr) :
    (logFindConsidered guild history).length ≤ 20 ∧
    (∀ e ∈ logFindConsidered guild history, e.guild = some guild) ∧
    logFindConsidered guild history
      = ((history.filter (fun e => decide (e.guild = some guild))).reverse).take 20 ∧
    logFindMatched condition guild history
      = (logFindConsidered guild history).filter (fun e => truthy (condition.eval guild e)) := by
  refine ⟨?_, ?_, ?_, ?_⟩
  · simp [logFindConsidered]
  · intro e he
    have h1 : e ∈ (history.reverse).filter (fun e => decide (e.guild = some guild)) :=
      List.mem_of_mem_take he
    simpa using (List.mem_filter.mp h1).2
  · unfold logFindConsidered
    rw [List.filter_reverse]
  · unfold logFindMatched
    simpa using foldl_append_ite_eq_filter
      (fun e => truthy (condition.eval guild e)) (logFindConsidered guild history) []

/-- C3 witness: the theorem applied to a one-event history of the invoking
guild. -/
theorem c3_find_considers_twenty_recent_guild_events_witness :
    ({ path := "/x", guild := some { id := 1 }, content := "", attributes := [],
       icon := "" } : Event).guild = some { id := 1 } :=
  (c3_find_considers_twenty_recent_guild_events { id := 1 }
      [{ path := "/x", guild := some { id := 1 }, content := "", attributes := [], icon := "" }]
      (.lit .vNone)).2.1 _ (by decide)

/-- C6 counterexample: the `journal find` condition is NOT restricted to
the fixed, safe predicate model.  The condition `content == "a"` — a plain
expression the code's `eval` accepts — distinguishes two events that agree
on path, scope and attributes and differ only in content, so no fixed-model
predicate (path-prefix, scope equality, attribute equality/containment,
under boolean connectives) denotes it, yet it determines the matched set:
of the two considered events only the first is matched. -/
theorem c6_condition_escapes_fixed_model :
    fixedIndistinguishable
      { path := "/x", guild := some { id := 1 }, content := "a", attributes := [], icon := "" }
      { path := "/x", guild := some { id := 1 }, content := "b", attributes := [], icon := "" } ∧
    truthy (PyExpr.eval (.eqE (.varE "content") (.lit (.vStr "a"))) { id := 1 }
      { path := "/x", guild := some { id := 1 }, content := "a", attributes := [], icon := "" }) = true ∧
    truthy (PyExpr.eval (.eqE (.varE "content") (.lit (.vStr "a"))) { id := 1 }
      { path := "/x", guild := some { id := 1 }, content := "b", attributes := [], icon := "" }) = false ∧
    logFindMatched (.eqE (.varE "content") (.lit (.vStr "a"))) { id := 1 }
      [{ path := "/x", guild := some { id := 1 }, content := "b", attributes := [], icon := "" },
       { path := "/x", guild := some { id := 1 }, content := "a", attributes := [], icon := "" }]
      = [{ path := "/x", guild := some { id := 1 }, content := "a", attributes := [], icon := "" }] :=
  ⟨fixedPred_eval_congr _ _ rfl rfl rfl, rfl, rfl, by decide⟩

/-- C6 (amended): the `journal find` condition is evaluated as an arbitrary
expression over the scope {path, ppath, guild, content, attributes} built
by `create_scope` — with `guild` bound to the invoking guild — and the
matched events are exactly the considered events on which that expression
evaluates truthy; the expression language is not limited to the fixed safe
predicate model. -/
theorem c6_matched_is_expression_filter (condition : PyExpr) (guild : Guild)
    (history : List Event) :
    logFindMatched condition guild history
      = (logFindConsidered guild history).filter (fun e => truthy (condition.eval guild e)) := by
  unfold logFindMatched
  simpa using foldl_append_ite_eq_filter
    (fun e => truthy (condition.eval guild e)) (logFindConsidered guild history) []

/-- C9: the call on file.py line 78 passes `(triggered, roles, reupload)`
positionally into a function whose parameters are declared in the order
`(roles, triggered, reupload)`, so the `FoundFileViolation` namedtuple
binds to the parameter named `roles` and the special-roles record binds to
the parameter named `triggered`; the very first field access
`triggered.journal` inside `found_file_violation` therefore raises
`AttributeError`.  Had the arguments been bound the other way around, every
field access would have succeeded. -/
theorem c9_swapped_call_raises_attribute_error (triggered : FoundFileViolation)
    (roles : SpecialRoles) (reupload : Bool) :
    checkFileFilterViolationCall triggered roles reupload
      = .error (.attributeError "journal") ∧
    foundFileViolationFieldReads (.rolesObj roles) (.violationObj triggered) reupload = .ok () :=
  ⟨rfl, rfl⟩

/-- C10: enforcement in `found_file_violation` is cumulative in severity —
an action is performed exactly when its threshold level is at most the
violation's severity: staff-journal notification at FLAG and above,
message deletion and author notification at BLOCK and above, and at JAIL
and above the jail-role assignment when a jail role is configured or the
warning journal event when none is. -/
theorem c10_enforcement_cumulative (roles : SpecialRoles) (triggered : FoundFileViolation)
    (reupload : Bool) :
    (EnforcementAction.notifyStaffJournal ∈ foundFileViolationActions roles triggered reupload ↔
      FilterType.flag.level ≤ triggered.filter_type.level) ∧
    (EnforcementAction.deleteMessage ∈ foundFileViolationActions roles triggered reupload ↔
      FilterType.block.level ≤ triggered.filter_type.level) ∧
    (EnforcementAction.notifyAuthor ∈ foundFileViolationActions roles triggered reupload ↔
      FilterType.block.level ≤ triggered.filter_type.level) ∧
    (EnforcementAction.assignJailRole ∈ foundFileViolationActions roles triggered reupload ↔
      (FilterType.jail.level ≤ triggered.filter_type.level ∧ roles.jail ≠ none)) ∧
    (EnforcementAction.warnNoJailRole ∈ foundFileViolationActions roles triggered reupload ↔
      (FilterType.jail.level ≤ triggered.filter_type.level ∧ roles.jail = none)) := by
  unfold foundFileViolationActions
  cases hj : roles.jail <;> dsimp only <;> split_ifs <;>
    simp_all [FilterType.flag, FilterType.block, FilterType.jail]

/-- Helper: on a successful `journal add`, the flags parsed, the path was
well formed, the registered listener is built from (path, channel) with the
constructor default, and the router and database are transformed as the
code prescribes. -/
theorem logAdd_ok_characterization (router : Router) (db : JournalDB) (channel : TextChannel)
    (path : String) (flags : List String) (res : LogAddResult)
    (h : logAdd router db channel path flags = .ok res) :
    ∃ recursive, parseExactFlags flags = .ok recursive ∧
      wellFormedPath path = true ∧
      res.listener = { path := path, channel := channel } ∧
      res.router = router.register { path := path, channel := channel } ∧
      res.db = (if db.hasJournalChannel channel path
                then db.updateJournalChannel channel path recursive
                else db.addJournalChannel channel path recursive) := by
  unfold logAdd at h
  cases hp : parseExactFlags flags with
  | error e => rw [hp] at h; dsimp only at h; cases h
  | ok recursive =>
    rw [hp] at h
    dsimp only at h
    cases hr : Router.registerChecked router { path := path, channel := channel } with
    | error e => rw [hr] at h; dsimp only at h; cases h
    | ok router2 =>
      rw [hr] at h
      dsimp only at h
      cases h
      unfold Router.registerChecked at hr
      split at hr
      · cases hr
        rename_i hwf
        exact ⟨recursive, rfl, hwf, rfl, rfl, rfl⟩
      · cases hr

/-- Helper: updating an existing registration keeps the registry's keys and
its length unchanged. -/
theorem register_update_keys (r : Router) (l : ChannelOutputListener)
    (h : r.listeners.any (fun l2 => decide (listenerKey l2 = listenerKey l)) = true) :
    (r.register l).listeners.map listenerKey = r.listeners.map listenerKey ∧
    (r.register l).listeners.length = r.listeners.length := by
  unfold Router.register
  rw [if_pos h]
  constructor
  · rw [List.map_map]
    apply List.map_congr_left
    intro x hx
    by_cases hk : listenerKey x = listenerKey l
    · simp [hk]
    · simp [hk]
  · simp

/-- Helper: registering a fresh (path, destination) pair appends it. -/
theorem register_append_listeners (r : Router) (l : ChannelOutputListener)
    (h : ¬ r.listeners.any (fun l2 => decide (listenerKey l2 = listenerKey l)) = true) :
    (r.register l).listeners = r.listeners ++ [l] := by
  unfold Router.register
  rw [if_neg h]

/-- Helper: `Router.register` preserves the no-duplicate-pairs invariant. -/
theorem register_preserves_distinct (r : Router) (l : ChannelOutputListener)
    (hr : routerDistinct r) : routerDistinct (r.register l) := by
  unfold routerDistinct at hr ⊢
  by_cases h : r.listeners.any (fun l2 => decide (listenerKey l2 = listenerKey l)) = true
  · rw [(register_update_keys r l h).1]; exact hr
  · rw [register_append_listeners r l h, List.map_append]
    simp only [List.any_eq_true, decide_eq_true_eq, not_exists, not_and] at h
    have hnot : listenerKey l ∉ r.listeners.map listenerKey := by
      intro hmem
      obtain ⟨x, hx, hkx⟩ := List.mem_map.mp hmem
      exact h x hx hkx
    simp [List.nodup_append, hr, hnot]

/-- Helper: a database update keeps the rows' keys and the row count
unchanged. -/
theorem dbUpdate_keys (db : JournalDB) (channel : TextChannel) (path : String) (recursive : Bool) :
    (db.updateJournalChannel channel path recursive).rows.map dbKey = db.rows.map dbKey ∧
    (db.updateJournalChannel channel path recursive).rows.length = db.rows.length := by
  unfold JournalDB.updateJournalChannel
  constructor
  · rw [List.map_map]
    apply List.map_congr_left
    intro x hx
    by_cases hk : x.channel = channel ∧ x.path = path
    · simp [hk, dbKey, hk.1, hk.2]
    · simp [hk]
  · simp

/-- Helper: inserting a fresh (destination, path) row preserves the
no-duplicate-rows invariant. -/
theorem dbAdd_preserves_distinct (db : JournalDB) (channel : TextChannel) (path : String)
    (recursive : Bool) (hd : dbDistinct db) (h : db.hasJournalChannel channel path = false) :
    dbDistinct (db.addJournalChannel channel path recursive) := by
  unfold dbDistinct at hd ⊢
  unfold JournalDB.addJournalChannel
  rw [List.map_append]
  simp only [JournalDB.hasJournalChannel, List.any_eq_false, decide_eq_true_eq] at h
  have hnot : dbKey { channel := channel, path := path, recursive := recursive } ∉ db.rows.map dbKey := by
    intro hmem
    obtain ⟨x, hx, hkx⟩ := List.mem_map.mp hmem
    have : x.channel = channel ∧ x.path = path := by
      have := congrArg Prod.fst hkx
      have h2 := congrArg Prod.snd hkx
      exact ⟨this, h2⟩
    exact h x hx this
  simp [List.nodup_append, hd, hnot]

/-- C4: starting from states satisfying the no-duplicate invariant, every
successful `journal add` preserves it in the Router registry and in the
database; re-registering an existing (path, destination) pair changes
neither the registry size nor the row count (it updates in place); and
re-running `journal add` for an already-configured pair is not a fault —
it succeeds. -/
theorem c4_reregistration_updates_not_duplicates (router : Router) (db : JournalDB)
    (channel : TextChannel) (path : String) (hr : routerDistinct router) (hd : dbDistinct db) :
    (∀ flags res, logAdd router db channel path flags = .ok res →
      routerDistinct res.router ∧ dbDistinct res.db) ∧
    (∀ flags res, logAdd router db channel path flags = .ok res →
      ((path, channel) ∈ router.listeners.map listenerKey →
        res.router.listeners.length = router.listeners.length) ∧
      (db.hasJournalChannel channel path = true → res.db.rows.length = db.rows.length)) ∧
    (wellFormedPath path = true → ∃ res, logAdd router db channel path [] = .ok res) := by
  refine ⟨?_, ?_, ?_⟩
  · intro flags res h
    obtain ⟨recursive, hp, hwf, hl, hrt, hdb⟩ := logAdd_ok_characterization _ _ _ _ _ _ h
    constructor
    · rw [hrt]; exact register_preserves_distinct _ _ hr
    · rw [hdb]
      by_cases hhas : db.hasJournalChannel channel path = true
      · rw [if_pos hhas]
        unfold dbDistinct
        rw [(dbUpdate_keys db channel path recursive).1]
        exact hd
      · rw [if_neg hhas]
        exact dbAdd_preserves_distinct db channel path recursive hd (by simpa using hhas)
  · intro flags res h
    obtain ⟨recursive, hp, hwf, hl, hrt, hdb⟩ := logAdd_ok_characterization _ _ _ _ _ _ h
    constructor
    · intro hmem
      rw [hrt]
      have hany : router.listeners.any
          (fun l2 => decide (listenerKey l2 = listenerKey { path := path, channel := channel })) = true := by
        obtain ⟨x, hx, hkx⟩ := List.mem_map.mp hmem
        exact List.any_eq_true.mpr ⟨x, hx, by simpa [listenerKey] using hkx⟩
      exact (register_update_keys router _ hany).2
    · intro hhas
      rw [hdb, if_pos hhas]
      exact (dbUpdate_keys db channel path recursive).2
  · intro hwf
    have hreg : Router.registerChecked router { path := path, channel := channel }
        = .ok (router.register { path := path, channel := channel }) := by
      unfold Router.registerChecked
      rw [if_pos hwf]
    refine ⟨{ router := router.register { path := path, channel := channel },
              db := if db.hasJournalChannel channel path
                    then db.updateJournalChannel channel path true
                    else db.addJournalChannel channel path true,
              listener := { path := path, channel := channel } }, ?_⟩
    unfold logAdd parseExactFlags parseExactFlags.go
    dsimp only
    rw [hreg]

/-- C4 witness: the theorem applied to a router and database that already
hold the (path, destination) pair being re-registered. -/
theorem c4_reregistration_updates_not_duplicates_witness :
    ∃ res, logAdd { listeners := [{ path := "/a", channel := { id := 1 }, recursive := true }] }
      { rows := [{ channel := { id := 1 }, path := "/a", recursive := true }] }
      { id := 1 } "/a" [] = .ok res :=
  (c4_reregistration_updates_not_duplicates
      { listeners := [{ path := "/a", channel := { id := 1 }, recursive := true }] }
      { rows := [{ channel := { id := 1 }, path := "/a", recursive := true }] }
      { id := 1 } "/a" (by unfold routerDistinct; decide)
      (by unfold dbDistinct; decide)).2.2 (by decide)

/-- Helper: joining any root with the empty relative path yields the root. -/
theorem joinPath_empty (root : String) : joinPath root "" = root := by
  unfold joinPath
  rw [if_pos rfl]

/-- C5: a `journal add` registration or a `journal send` succeeds only for
a well-formed path, and on success the path reaches the listener and the
event verbatim — never normalized or truncated; a malformed path is
rejected with an error before any state changes. -/
theorem c5_malformed_paths_rejected (router : Router) (db : JournalDB) (channel : TextChannel)
    (path : String) (flags : List String) (guild : Guild) (content : String)
    (attrs : List String) :
    (∀ res, logAdd router db channel path flags = .ok res →
      wellFormedPath path = true ∧ res.listener.path = path) ∧
    (∀ e, logSend guild path content attrs = .ok e →
      wellFormedPath path = true ∧ e.path = path) ∧
    (wellFormedPath path = false →
      (∃ err, logAdd router db channel path flags = .error err) ∧
      (∃ err, logSend guild path content attrs = .error err)) := by
  refine ⟨?_, ?_, ?_⟩
  · intro res h
    obtain ⟨recursive, hp, hwf, hl, _, _⟩ := logAdd_ok_characterization _ _ _ _ _ _ h
    exact ⟨hwf, by rw [hl]⟩
  · intro e h
    unfold logSend at h
    split at h
    · cases h
    · cases hp : parseAttributes attrs with
      | error err => rw [hp] at h; dsimp only at h; cases h
      | ok jattrs =>
        rw [hp] at h
        dsimp only at h
        unfold Broadcaster.send at h
        rw [joinPath_empty] at h
        dsimp only at h
        split at h
        · cases h
          rename_i hwf
          exact ⟨hwf, rfl⟩
        · cases h
  · intro hwf
    constructor
    · cases hp : parseExactFlags flags with
      | error err =>
        exact ⟨err, by unfold logAdd; rw [hp]⟩
      | ok recursive =>
        refine ⟨.pathFormatError, ?_⟩
        unfold logAdd
        rw [hp]
        dsimp only
        unfold Router.registerChecked
        rw [if_neg (by simp [hwf])]
    · by_cases hroot : path = "/"
      · exact ⟨.commandFailed "Cannot broadcast on /", by unfold logSend; rw [if_pos hroot]⟩
      · cases hp : parseAttributes attrs with
        | error err =>
          exact ⟨err, by unfold logSend; rw [if_neg hroot, hp]⟩
        | ok jattrs =>
          refine ⟨.pathFormatError, ?_⟩
          unfold logSend
          rw [if_neg hroot, hp]
          dsimp only
          unfold Broadcaster.send
          rw [joinPath_empty]
          rw [if_neg (by simp [hwf])]

/-- C5 witness: the theorem's send clause applied to a manual send on the
well-formed path `/journal`. -/
theorem c5_malformed_paths_rejected_witness :
    wellFormedPath "/journal" = true ∧
    ({ path := "/journal", guild := some { id := 1 }, content := "hi", attributes := [],
       icon := "" } : Event).path = "/journal" :=
  (c5_malformed_paths_rejected { listeners := [] } { rows := [] } { id := 1 } "/journal" []
      { id := 1 } "hi" []).2.1 _ rfl

/-- Helper: when `router.get` finds a listener, the registry splits around
the first matching entry, and the rename mutation rewrites exactly that
entry's channel, leaving every other entry in place. -/
theorem renameListeners_decomp (newChannel oldChannel : TextChannel) (path : String) :
    ∀ (ls : List ChannelOutputListener) (l0 : ChannelOutputListener),
      ls.find? (fun l => decide (l.path = path ∧ l.channel = oldChannel)) = some l0 →
      ∃ pre post, ls = pre ++ l0 :: post ∧
        renameListeners newChannel path oldChannel ls
          = pre ++ { l0 with channel := newChannel } :: post ∧
        l0.path = path ∧ l0.channel = oldChannel := by
  intro ls
  induction ls with
  | nil => intro l0 h; cases h
  | cons x xs ih =>
    intro l0 h
    rw [List.find?_cons] at h
    by_cases hx : x.path = path ∧ x.channel = oldChannel
    · rw [decide_eq_true hx] at h
      dsimp only at h
      injection h with h0
      subst h0
      refine ⟨[], xs, rfl, ?_, hx.1, hx.2⟩
      unfold renameListeners
      rw [if_pos hx]
      rfl
    · rw [decide_eq_false hx] at h
      dsimp only at h
      obtain ⟨pre, post, hls, hrn, hp0, hc0⟩ := ih l0 h
      refine ⟨x :: pre, post, by rw [hls]; rfl, ?_, hp0, hc0⟩
      unfold renameListeners
      rw [if_neg hx, hrn]
      rfl

/-- C7: a successful `journal rename` mutates only the matched listener's
destination: the registry splits as pre ++ listener :: post, the result is
pre ++ (listener with its channel set to the new channel) :: post — same
path, same recursive flag, new channel, all other listeners untouched —
and the registry's size is unchanged, so nothing is registered or
unregistered. -/
theorem c7_rename_mutates_only_destination (router : Router) (db : JournalDB)
    (oldChannel newChannel : TextChannel) (path : String) (flags : List String)
    (res : LogRenameResult) (h : logRename router db oldChannel newChannel path flags = .ok res) :
    ∃ pre l0 post,
      router.listeners = pre ++ l0 :: post ∧
      res.router.listeners = pre ++ { l0 with channel := newChannel } :: post ∧
      l0.path = path ∧ l0.channel = oldChannel ∧
      ({ l0 with channel := newChannel } : ChannelOutputListener).path = l0.path ∧
      ({ l0 with channel := newChannel } : ChannelOutputListener).recursive = l0.recursive ∧
      ({ l0 with channel := newChannel } : ChannelOutputListener).channel = newChannel ∧
      res.router.listeners.length = router.listeners.length := by
  unfold logRename at h
  cases hp : parseExactFlags flags with
  | error e => rw [hp] at h; dsimp only at h; cases h
  | ok recursive =>
    rw [hp] at h
    dsimp only at h
    cases hg : router.get path oldChannel with
    | none => rw [hg] at h; dsimp only at h; cases h
    | some l0 =>
      rw [hg] at h
      dsimp only at h
      cases h
      unfold Router.get at hg
      obtain ⟨pre, post, hls, hrn, hp0, hc0⟩ :=
        renameListeners_decomp newChannel oldChannel path router.listeners l0 hg
      refine ⟨pre, l0, post, hls, by dsimp only; rw [hrn], hp0, hc0, rfl, rfl, rfl, ?_⟩
      dsimp only
      rw [hrn, hls]
      simp

/-- C7 witness: the theorem applied to a registry holding one listener at
`/a` on channel 1, renamed to channel 2. -/
theorem c7_rename_mutates_only_destination_witness :
    ∃ pre l0 post,
      ([{ path := "/a", channel := { id := 1 }, recursive := true }] :
          List ChannelOutputListener) = pre ++ l0 :: post ∧
      ({ router := { listeners := [{ path := "/a", channel := { id := 2 }, recursive := true }] },
         db := { rows := [{ channel := { id := 2 }, path := "/a", recursive := true }] } } :
          LogRenameResult).router.listeners
        = pre ++ { l0 with channel := { id := 2 } } :: post ∧
      l0.path = "/a" ∧ l0.channel = { id := 1 } ∧
      ({ l0 with channel := { id := 2 } } : ChannelOutputListener).path = l0.path ∧
      ({ l0 with channel := { id := 2 } } : ChannelOutputListener).recursive = l0.recursive ∧
      ({ l0 with channel := { id := 2 } } : ChannelOutputListener).channel = { id := 2 } ∧
      ({ router := { listeners := [{ path := "/a", channel := { id := 2 }, recursive := true }] },
         db := { rows := [{ channel := { id := 2 }, path := "/a", recursive := true }] } } :
          LogRenameResult).router.listeners.length
        = ([{ path := "/a", channel := { id := 1 }, recursive := true }] :
            List ChannelOutputListener).length :=
  c7_rename_mutates_only_destination
    { listeners := [{ path := "/a", channel := { id := 1 }, recursive := true }] }
    { rows := [] } { id := 1 } { id := 2 } "/a" [] _ rfl

/-- Helper: a filter whose hashsum is not among the downloads leaves the
triggered accumulator unchanged. -/
theorem triggeredStep_skip (J : Nat) (M : Message) (H : List (Hashsum × BinData × Url))
    (entry : Hashsum × FilterType) (tr : Option FoundFileViolation)
    (h : lookupHashsum H entry.1 = none) : triggeredStep J M H tr entry = tr := by
  unfold triggeredStep
  rw [h]

/-- Helper: the first matching filter becomes the triggered violation. -/
theorem triggeredStep_first (J : Nat) (M : Message) (H : List (Hashsum × BinData × Url))
    (entry : Hashsum × FilterType) (b : BinData) (u : Url)
    (h : lookupHashsum H entry.1 = some (b, u)) :
    triggeredStep J M H none entry
      = some { journal := J, message := M, filter_type := entry.2, url := u, binio := b,
               hashsum := entry.1 } := by
  unfold triggeredStep
  rw [h]

/-- Helper: a matching filter of strictly greater value replaces the
triggered violation. -/
theorem triggeredStep_replace (J : Nat) (M : Message) (H : List (Hashsum × BinData × Url))
    (entry : Hashsum × FilterType) (b : BinData) (u : Url) (t : FoundFileViolation)
    (h : lookupHashsum H entry.1 = some (b, u)) (hv : t.filter_type.value < entry.2.value) :
    triggeredStep J M H (some t) entry
      = some { journal := J, message := M, filter_type := entry.2, url := u, binio := b,
               hashsum := entry.1 } := by
  unfold triggeredStep
  rw [h]
  dsimp only
  rw [if_pos hv]

/-- Helper: a matching filter of no greater value is ignored. -/
theorem triggeredStep_keep (J : Nat) (M : Message) (H : List (Hashsum × BinData × Url))
    (entry : Hashsum × FilterType) (b : BinData) (u : Url) (t : FoundFileViolation)
    (h : lookupHashsum H entry.1 = some (b, u)) (hv : ¬ t.filter_type.value < entry.2.value) :
    triggeredStep J M H (some t) entry = some t := by
  unfold triggeredStep
  rw [h]
  dsimp only
  rw [if_neg hv]

/-- Helper: once the filter loop holds a triggered violation it never drops
it, and the selected value never decreases. -/
theorem triggered_foldl_mono (J : Nat) (M : Message) (H : List (Hashsum × BinData × Url))
    (fs : List (Hashsum × FilterType)) :
    ∀ t : FoundFileViolation, ∃ t2, fs.foldl (triggeredStep J M H) (some t) = some t2 ∧
      t.filter_type.value ≤ t2.filter_type.value := by
  induction fs with
  | nil => intro t; exact ⟨t, rfl, le_refl _⟩
  | cons e fs ih =>
    intro t
    rw [List.foldl_cons]
    cases hl : lookupHashsum H e.1 with
    | none =>
      rw [triggeredStep_skip J M H e (some t) hl]
      exact ih t
    | some bu =>
      obtain ⟨b, u⟩ := bu
      by_cases hv : t.filter_type.value < e.2.value
      · rw [triggeredStep_replace J M H e b u t hl hv]
        obtain ⟨t2, h2, hle⟩ := ih ⟨J, M, e.2, u, b, e.1⟩
        exact ⟨t2, h2, le_trans (le_of_lt hv) hle⟩
      · rw [triggeredStep_keep J M H e b u t hl hv]
        exact ih t

/-- Helper: the filter loop ends with no triggered violation exactly when
it started with none and no filter's hashsum is among the downloads. -/
theorem triggered_foldl_none_iff (J : Nat) (M : Message) (H : List (Hashsum × BinData × Url))
    (fs : List (Hashsum × FilterType)) :
    ∀ acc, fs.foldl (triggeredStep J M H) acc = none ↔
      (acc = none ∧ ∀ entry ∈ fs, lookupHashsum H entry.1 = none) := by
  induction fs with
  | nil => intro acc; simp
  | cons e fs ih =>
    intro acc
    rw [List.foldl_cons, ih]
    constructor
    · rintro ⟨hstep, hall⟩
      have hae : acc = none ∧ lookupHashsum H e.1 = none := by
        cases hl : lookupHashsum H e.1 with
        | none =>
          rw [triggeredStep_skip J M H e acc hl] at hstep
          exact ⟨hstep, rfl⟩
        | some bu =>
          obtain ⟨b, u⟩ := bu
          cases acc with
          | none => rw [triggeredStep_first J M H e b u hl] at hstep; cases hstep
          | some t =>
            by_cases hv : t.filter_type.value < e.2.value
            · rw [triggeredStep_replace J M H e b u t hl hv] at hstep; cases hstep
            · rw [triggeredStep_keep J M H e b u t hl hv] at hstep; cases hstep
      refine ⟨hae.1, ?_⟩
      intro entry hmem
      rcases List.mem_cons.mp hmem with he | hmem2
      · subst he; exact hae.2
      · exact hall entry hmem2
    · rintro ⟨hacc, hall⟩
      subst hacc
      refine ⟨?_, fun entry hmem => hall entry (List.mem_cons_of_mem e hmem)⟩
      exact triggeredStep_skip J M H e none (hall e (List.mem_cons_self e fs))

/-- Helper: a triggered violation produced by the filter loop either was the
starting accumulator or is built from a filter of the list whose hashsum is
among the downloads, carrying that entry's url and buffer. -/
theorem triggered_foldl_some (J : Nat) (M : Message) (H : List (Hashsum × BinData × Url))
    (fs : List (Hashsum × FilterType)) :
    ∀ acc t2, fs.foldl (triggeredStep J M H) acc = some t2 →
      acc = some t2 ∨
        ((t2.hashsum, t2.filter_type) ∈ fs ∧
          lookupHashsum H t2.hashsum = some (t2.binio, t2.url)) := by
  induction fs with
  | nil => intro acc t2 h; exact Or.inl h
  | cons e fs ih =>
    intro acc t2 h
    rw [List.foldl_cons] at h
    rcases ih _ t2 h with hstep | hcand
    · cases hl : lookupHashsum H e.1 with
      | none =>
        rw [triggeredStep_skip J M H e acc hl] at hstep
        exact Or.inl hstep
      | some bu =>
        obtain ⟨b, u⟩ := bu
        cases acc with
        | none =>
          rw [triggeredStep_first J M H e b u hl] at hstep
          injection hstep with h0
          subst h0
          exact Or.inr ⟨List.mem_cons_self e fs, hl⟩
        | some t =>
          by_cases hv : t.filter_type.value < e.2.value
          · rw [triggeredStep_replace J M H e b u t hl hv] at hstep
            injection hstep with h0
            subst h0
            exact Or.inr ⟨List.mem_cons_self e fs, hl⟩
          · rw [triggeredStep_keep J M H e b u t hl hv] at hstep
            exact Or.inl hstep
    · exact Or.inr ⟨List.mem_cons_of_mem e hcand.1, hcand.2⟩

/-- Helper: the triggered violation the filter loop produces has a value at
least that of every matching filter it processed. -/
theorem triggered_foldl_max (J : Nat) (M : Message) (H : List (Hashsum × BinData × Url))
    (fs : List (Hashsum × FilterType)) :
    ∀ acc t2, fs.foldl (triggeredStep J M H) acc = some t2 →
      ∀ entry ∈ fs, lookupHashsum H entry.1 ≠ none → entry.2.value ≤ t2.filter_type.value := by
  induction fs with
  | nil => intro acc t2 h entry hmem; cases hmem
  | cons e fs ih =>
    intro acc t2 h entry hmem hlk
    rw [List.foldl_cons] at h
    rcases List.mem_cons.mp hmem with heq | hmem2
    · subst heq
      cases hl : lookupHashsum H entry.1 with
      | none => exact absurd hl hlk
      | some bu =>
        obtain ⟨b, u⟩ := bu
        have hstep : ∃ t1, triggeredStep J M H acc entry = some t1 ∧
            entry.2.value ≤ t1.filter_type.value := by
          cases acc with
          | none => exact ⟨_, triggeredStep_first J M H entry b u hl, le_refl _⟩
          | some t =>
            by_cases hv : t.filter_type.value < entry.2.value
            · exact ⟨_, triggeredStep_replace J M H entry b u t hl hv, le_refl _⟩
            · exact ⟨t, triggeredStep_keep J M H entry b u t hl hv, le_of_not_lt hv⟩
        obtain ⟨t1, h1, hle⟩ := hstep
        rw [h1] at h
        obtain ⟨t3, h3, hmono⟩ := triggered_foldl_mono J M H fs t1
        rw [h3] at h
        injection h with h0
        subst h0
        exact le_trans hle hmono
    · exact ih _ t2 h entry hmem2 hlk

/-- C8: `check_file_filter` selects for enforcement a violation whose
`filter_type.value` is maximal among all matching filters: the loop yields
no violation exactly when no configured filter's hashsum matches a
downloaded file; a selected violation comes from a matching filter of the
guild's list and its value dominates every matching filter's value, so no
strictly-lower-valued filter is enforced when a higher-valued one matches;
and when no filter matches, no enforcement occurs. -/
theorem c8_max_value_violation_selected (journal : Nat) (message : Message)
    (filters : List (Hashsum × FilterType)) (hashsums : List (Hashsum × BinData × Url))
    (roles : SpecialRoles) (reupload : Bool) :
    (checkTriggered journal message filters hashsums = none ↔
      ∀ entry ∈ filters, lookupHashsum hashsums entry.1 = none) ∧
    (∀ t, checkTriggered journal message filters hashsums = some t →
      ((t.hashsum, t.filter_type) ∈ filters ∧
        lookupHashsum hashsums t.hashsum = some (t.binio, t.url)) ∧
      ∀ entry ∈ filters, lookupHashsum hashsums entry.1 ≠ none →
        entry.2.value ≤ t.filter_type.value) ∧
    (checkTriggered journal message filters hashsums = none →
      checkFileFilterEnforces journal message filters hashsums roles reupload = none) := by
  refine ⟨?_, ?_, ?_⟩
  · unfold checkTriggered
    rw [triggered_foldl_none_iff]
    simp
  · intro t h
    unfold checkTriggered at h
    constructor
    · rcases triggered_foldl_some journal message hashsums filters none t h with h0 | hcand
      · cases h0
      · exact hcand
    · exact triggered_foldl_max journal message hashsums filters none t h
  · intro h
    unfold checkFileFilterEnforces
    rw [h]

/-- C8 witness: two configured filters both match a download; the selected
violation carries the higher value (9) and dominates the other (2). -/
theorem c8_max_value_violation_selected_witness :
    ((5, ({ value := 9, level := 1 } : FilterType))
        ∈ [((5 : Hashsum), ({ value := 9, level := 1 } : FilterType)),
           ((7 : Hashsum), ({ value := 2, level := 2 } : FilterType))] ∧
      lookupHashsum [(5, 10, "u5"), (7, 11, "u7")] 5 = some (10, "u5")) :=
  ((c8_max_value_violation_selected 0 { id := 0, author := 0 }
      [(5, { value := 9, level := 1 }), (7, { value := 2, level := 2 })]
      [(5, 10, "u5"), (7, 11, "u7")] { jail := none } false).2.1
    { journal := 0, message := { id := 0, author := 0 }, filter_type := { value := 9, level := 1 },
      url := "u5", binio := 10, hashsum := 5 } (by decide)).1

end Futaba
